import Mathlib

set_option maxHeartbeats 1000000

/- Shallow embedding of the client of the infrastructure-generator repository:
   src/services/api.ts, src/components/DiagramControls.tsx, src/pages/Index.tsx and
   src/hooks/useWebSocket.ts.  Network effects are modelled by passing the backend's
   behaviour as an explicit argument; a thrown exception is modelled as Except.error. -/

/-- The double-quote character (written numerically so char literals stay simple). -/
def dq : Char := Char.ofNat 34

/-- JS regex word-character class \w, that is [A-Za-z0-9_]. -/
def isWordChar (c : Char) : Bool := c.isAlphanum || c == '_'

/-- The character class [\w-] used by the node-id regex in extractResourceIds. -/
def isWordOrHyphen (c : Char) : Bool := isWordChar c || c == '-'

/-- One attempt, at the current position, of the regex (\w+-[\w-]+)\["([^"]+)" from
DiagramControls.tsx line 49.  Each quantified class excludes the character that must
follow it, so the greedy JS match needs no backtracking and maximal-munch is exact.
Returns (captured id characters, captured label characters) on success. -/
def tryMatchAt (cs : List Char) : Option (List Char × List Char) :=
  let w1 := cs.takeWhile isWordChar
  if w1.isEmpty then none
  else
    match cs.dropWhile isWordChar with
    | '-' :: rest2 =>
      let w2 := rest2.takeWhile isWordOrHyphen
      if w2.isEmpty then none
      else
        match rest2.dropWhile isWordOrHyphen with
        | '[' :: c :: rest4 =>
          if c == dq then
            let lab := rest4.takeWhile (fun d => d != dq)
            if lab.isEmpty then none
            else
              match rest4.dropWhile (fun d => d != dq) with
              | d :: _ => if d == dq then some (w1 ++ '-' :: w2, lab) else none
              | [] => none
          else none
        | _ => none
    | _ => none

/-- JS String.prototype.match semantics for a non-global regex: leftmost successful
match position wins. -/
def scanLine : List Char → Option (List Char × List Char)
  | [] => none
  | c :: rest =>
    match tryMatchAt (c :: rest) with
    | some r => some r
    | none => scanLine rest

/-- label.replace of the global pattern <br/> by a space (DiagramControls.tsx line 52). -/
def replaceBr : List Char → List Char
  | '<' :: 'b' :: 'r' :: '/' :: '>' :: rest => ' ' :: replaceBr rest
  | c :: rest => c :: replaceBr rest
  | [] => []

/-- JS whitespace class \s restricted to its ASCII members. -/
def isJsSpace (c : Char) : Bool :=
  c == ' ' || c == '\t' || c == '\n' || c == '\r' || c == Char.ofNat 11 || c == Char.ofNat 12

/-- Fuel-indexed worker for the replacement of the global pattern ID:\s* by nothing:
every step consumes at least one character and one unit of fuel, so with the list's
length as fuel the first arm is never reached and the recursion is structural (and so
evaluates inside the kernel, which a well-founded recursion would not). -/
def removeIdTagGo : Nat → List Char → List Char
  | 0, l => l
  | _ + 1, [] => []
  | fuel + 1, 'I' :: 'D' :: ':' :: rest => removeIdTagGo fuel (rest.dropWhile isJsSpace)
  | fuel + 1, c :: rest => c :: removeIdTagGo fuel rest

/-- label.replace of the global pattern ID:\s* by nothing (DiagramControls.tsx line 52). -/
def removeIdTag (l : List Char) : List Char := removeIdTagGo l.length l

/-- Whether the first list starts with the second (JS String.prototype.startsWith,
written structurally so that concrete instances evaluate inside the kernel). -/
def charsStartWith : List Char → List Char → Bool
  | _, [] => true
  | [], _ :: _ => false
  | c :: s, p :: ps => c == p && charsStartWith s ps

/-- id.startsWith(pat) on the underlying character lists. -/
def strStartsWith (s pat : String) : Bool := charsStartWith s.toList pat.toList

/-- Resource-type tag inferred from the id's first segment (DiagramControls.tsx 54-59). -/
def typeForId (id : String) : String :=
  if strStartsWith id "ec2-" then "EC2"
  else if strStartsWith id "rds-" then "RDS"
  else if strStartsWith id "lb-" then "Load Balancer"
  else if strStartsWith id "s3-" then "S3"
  else if strStartsWith id "sg-" then "Security Group"
  else "unknown"

/-- The record pushed per matching line by extractResourceIds. -/
structure ExtractedResource where
  id : String
  «type» : String
  label : String
  deriving DecidableEq, Repr

/-- diagram.split of a newline, on the underlying character list (written structurally
so that concrete instances evaluate inside the kernel). -/
def splitOnNewline : List Char → List (List Char)
  | [] => [[]]
  | '\n' :: rest => [] :: splitOnNewline rest
  | c :: rest =>
    match splitOnNewline rest with
    | l :: ls => (c :: l) :: ls
    | [] => [[c]]

/-- extractResourceIds from DiagramControls.tsx lines 41-66: split the diagram text on
newlines, run the node-label regex on each line, and collect one entry per matching
line (id, inferred type, cleaned label). -/
def extractResourceIds (diagram : String) : List ExtractedResource :=
  if diagram = "" then []
  else
    (splitOnNewline diagram.toList).filterMap fun lineChars =>
      match scanLine lineChars with
      | some (idChars, labChars) =>
        let id := String.mk idChars
        some { id := id, «type» := typeForId id,
               label := String.mk (removeIdTag (replaceBr labChars)) }
      | none => none

/- ---------- DiagramControls.tsx: state machine of the edit controls ---------- -/

/-- The three edit actions of the controls (TS union 'add' | 'remove' | 'move'). -/
inductive EditAction
  | add
  | remove
  | move
  deriving DecidableEq, Repr

/-- String name of an action, used to build the backend operation name. -/
def actionName : EditAction → String
  | .add => "add"
  | .remove => "remove"
  | .move => "move"

/-- A property value in the loosely-typed Record sent with add operations. -/
inductive PropValue
  | str (s : String)
  | strList (l : List String)
  deriving DecidableEq, Repr

/-- DiagramEditEvent from api.ts lines 22-28; optional fields are Option, with none
playing the role of undefined. -/
structure DiagramEditEvent where
  action : EditAction
  resourceType : String
  resourceId : Option String := none
  targetSubnet : Option String := none
  properties : Option (List (String × PropValue)) := none
  deriving DecidableEq, Repr

/-- getDefaultProperties from DiagramControls.tsx lines 88-116 (the switch written as an
if-chain in declaration order). -/
def getDefaultProperties (resourceType : String) : List (String × PropValue) :=
  if resourceType = "ec2" then
    [("subnet_id", .str "subnet-public-1"), ("instance_type", .str "t2.micro")]
  else if resourceType = "rds" then
    [("subnet_ids", .strList ["subnet-private-1", "subnet-private-2"]),
     ("engine", .str "postgres"), ("instance_class", .str "db.t3.micro")]
  else if resourceType = "elb" ∨ resourceType = "load_balancer" then
    [("subnet_ids", .strList ["subnet-public-1"]), ("target_instance_ids", .strList [])]
  else if resourceType = "s3" then []
  else if resourceType = "security_group" then [("vpc_id", .str "vpc-main")]
  else []

/-- The component state of DiagramControls (lines 69-72). -/
structure ControlsState where
  selectedResource : String
  resourceId : String
  targetSubnet : String
  activeAction : Option EditAction
  deriving DecidableEq, Repr

/-- availableResources (line 75): extractResourceIds of currentDiagram with '' standing
in for an undefined prop. -/
def availableResources (currentDiagram : Option String) : List ExtractedResource :=
  extractResourceIds (currentDiagram.getD "")

/-- movableResources (line 76): the extracted resources restricted to EC2 and RDS. -/
def movableResources (currentDiagram : Option String) : List ExtractedResource :=
  (availableResources currentDiagram).filter fun r => r.«type» == "EC2" || r.«type» == "RDS"

/-- handleAction from DiagramControls.tsx lines 118-144, as a pure transition: given the
clicked action, the current diagram text and the component state, it returns the new
state together with the event passed to onEdit (none when onEdit is not called). -/
def handleAction (action : EditAction) (currentDiagram : Option String) (s : ControlsState) :
    ControlsState × Option DiagramEditEvent :=
  if s.activeAction = some action then
    if (action = .remove ∨ action = .move) ∧ s.resourceId ≠ ""
        ∧ ((availableResources currentDiagram).find? (fun r => r.id == s.resourceId)) = none then
      ({ s with resourceId := "", activeAction := none }, none)
    else
      ({ s with resourceId := "", activeAction := none },
       some { action := action,
              resourceType := s.selectedResource,
              resourceId := if s.resourceId = "" then none else some s.resourceId,
              targetSubnet := if action = .move then some s.targetSubnet else none,
              properties := if action = .add then some (getDefaultProperties s.selectedResource)
                            else none })
  else
    ({ s with activeAction := some action }, none)

/- ---------- api.ts: the API client ---------- -/

/-- Warning as delivered to the UI (api.ts lines 15-20); severity is kept as a plain
string so that the range of the severity mapping is a provable fact, not a typing
assumption. -/
structure Warning where
  severity : String
  message : String
  resource : Option String := none
  recommendation : Option String := none
  deriving DecidableEq, Repr

/-- InfrastructureResponse (api.ts lines 6-13); the opaque model summary is kept as an
optional string. -/
structure InfrastructureResponse where
  diagram : String
  terraform : String
  warnings : List Warning
  corrections : Option (List String) := none
  modelId : Option String := none
  model : Option String := none
  deriving DecidableEq, Repr

/-- A warning as it arrives from the backend, before the severity mapping. -/
structure BackendWarning where
  severity : String
  message : String
  resource : Option String := none
  recommendation : Option String := none
  deriving DecidableEq, Repr

/-- The severity mapping applied identically in generateFromText, editDiagram and
editTerraform: HIGH to error, MEDIUM to warning, anything else to info. -/
def mapSeverity (s : String) : String :=
  if s = "HIGH" then "error" else if s = "MEDIUM" then "warning" else "info"

/-- The spread-plus-override mapping of one backend warning. -/
def mapWarning (w : BackendWarning) : Warning :=
  { severity := mapSeverity w.severity, message := w.message,
    resource := w.resource, recommendation := w.recommendation }

/-- (data.security_warnings or an empty list), mapped; shared by all three endpoints,
where the source repeats this expression inline. -/
def mapSecurityWarnings (ws : Option (List BackendWarning)) : List Warning :=
  (ws.getD []).map mapWarning

/-- JS or-with-string-default: o or d, where none and the empty string are falsy. -/
def strOr (o : Option String) (d : String) : String :=
  if o.getD "" = "" then d else o.getD ""

instance instDecEqExcept {e a : Type} [DecidableEq e] [DecidableEq a] :
    DecidableEq (Except e a) := fun x y =>
  match x, y with
  | .error u, .error v =>
    match decEq u v with
    | isTrue h => isTrue (h ▸ rfl)
    | isFalse h => isFalse fun hh => h (Except.error.inj hh)
  | .ok u, .ok v =>
    match decEq u v with
    | isTrue h => isTrue (h ▸ rfl)
    | isFalse h => isFalse fun hh => h (Except.ok.inj hh)
  | .error _, .ok _ => isFalse fun hh => Except.noConfusion hh
  | .ok _, .error _ => isFalse fun hh => Except.noConfusion hh

/-- Outcome of one fetch call: either an HTTP failure (status text plus body text) or a
decoded JSON payload; a thrown network error is not modelled separately because only
checkHealth catches one. -/
inductive FetchResult (α : Type)
  | httpError (statusText : String) (errorText : String)
  | ok (data : α)
  deriving DecidableEq, Repr

/-- The JSON payload of POST /text as read by generateFromText. -/
structure GenerateData where
  mermaid_diagram : String
  terraform_code : String
  security_warnings : Option (List BackendWarning) := none
  corrections : Option (List String) := none
  model_id : Option String := none
  model_summary : Option String := none
  deriving DecidableEq, Repr

/-- generateFromText from api.ts lines 52-80, with the backend's behaviour passed in as
the fetch outcome; a throw is an Except.error. -/
def generateFromText (respond : FetchResult GenerateData) :
    Except String InfrastructureResponse :=
  match respond with
  | .httpError statusText _ =>
    .error ("Failed to generate infrastructure: " ++ statusText)
  | .ok data =>
    .ok { diagram := data.mermaid_diagram, terraform := data.terraform_code,
          warnings := mapSecurityWarnings data.security_warnings,
          corrections := some (data.corrections.getD []),
          modelId := data.model_id, model := data.model_summary }

/-- The mutation request body built by editDiagram (api.ts lines 88-114). -/
structure BackendRequest where
  current_model_id : String
  operation : String
  resource_type : String
  properties : Option (List (String × PropValue)) := none
  resource_id : Option String := none
  target_subnet_id : Option String := none
  deriving DecidableEq, Repr

/-- The hardcoded default properties of an add whose event carries none
(api.ts lines 96-99). -/
def addDefaultProperties : List (String × PropValue) :=
  [("subnet_id", .str "subnet-public-1"), ("subnet_ids", .strList ["subnet-private-1"])]

/-- Request construction of editDiagram, api.ts lines 86-114: operation name, resource
type, then the per-action conditional fields, throwing on a missing (undefined or
empty, i.e. falsy) resource id for remove and move and on a missing target subnet for
move, in source order. -/
def buildBackendRequest (modelId : String) (event : DiagramEditEvent) :
    Except String BackendRequest :=
  let base0 : BackendRequest :=
    { current_model_id := modelId,
      operation := actionName event.action ++ "_resource",
      resource_type := event.resourceType }
  let base1 := if event.action = EditAction.add then
      { base0 with properties := some (event.properties.getD addDefaultProperties) }
    else base0
  let step2 : Except String BackendRequest :=
    if event.action = EditAction.remove ∨ event.action = EditAction.move then
      if event.resourceId.getD "" = "" then
        Except.error "Resource ID is required for remove/move operations"
      else Except.ok { base1 with resource_id := event.resourceId }
    else Except.ok base1
  match step2 with
  | Except.error e => Except.error e
  | Except.ok base2 =>
    if event.action = EditAction.move then
      if event.targetSubnet.getD "" = "" then
        Except.error "Target subnet is required for move operation"
      else Except.ok { base2 with target_subnet_id := event.targetSubnet }
    else Except.ok base2

/-- The JSON payload of POST /edit/diagram as read by editDiagram. -/
structure EditData where
  success : Bool
  error : Option String := none
  mermaid_diagram : Option String := none
  terraform_code : Option String := none
  security_warnings : Option (List BackendWarning) := none
  model_id : Option String := none
  model_summary : Option String := none
  deriving DecidableEq, Repr

/-- The successful-return object of editDiagram (api.ts lines 139-145). -/
def editDiagramResponseOfData (data : EditData) : InfrastructureResponse :=
  { diagram := data.mermaid_diagram.getD "", terraform := data.terraform_code.getD "",
    warnings := mapSecurityWarnings data.security_warnings,
    modelId := data.model_id, model := data.model_summary }

/-- editDiagram from api.ts lines 82-146: build the request (throwing before any fetch
on a missing id or subnet), send it, throw on an HTTP error, throw on success=false
with the backend's error message or the fallback, and otherwise map the payload. -/
def editDiagram (modelId : String) (event : DiagramEditEvent)
    (respond : BackendRequest → FetchResult EditData) :
    Except String InfrastructureResponse :=
  match buildBackendRequest modelId event with
  | .error e => .error e
  | .ok req =>
    match respond req with
    | .httpError statusText errorText =>
      .error ("Failed to edit diagram: " ++ statusText ++ " - " ++ errorText)
    | .ok data =>
      if data.success = false then .error (strOr data.error "Operation failed")
      else .ok (editDiagramResponseOfData data)

/-- The request body of POST /edit/terraform. -/
structure TerraformRequest where
  current_model_id : String
  original_terraform : String
  modified_terraform : String
  deriving DecidableEq, Repr

/-- The JSON payload of POST /edit/terraform as read by editTerraform. -/
structure TerraformEditData where
  mermaid_diagram : Option String := none
  terraform_code : Option String := none
  security_warnings : Option (List BackendWarning) := none
  model_id : Option String := none
  model_summary : Option String := none
  deriving DecidableEq, Repr

/-- editTerraform from api.ts lines 148-182. -/
def editTerraform (modelId originalCode modifiedCode : String)
    (respond : TerraformRequest → FetchResult TerraformEditData) :
    Except String InfrastructureResponse :=
  match respond { current_model_id := modelId, original_terraform := originalCode,
                  modified_terraform := modifiedCode } with
  | .httpError statusText errorText =>
    .error ("Failed to update Terraform: " ++ statusText ++ " - " ++ errorText)
  | .ok data =>
    .ok { diagram := data.mermaid_diagram.getD "", terraform := data.terraform_code.getD "",
          warnings := mapSecurityWarnings data.security_warnings,
          modelId := data.model_id, model := data.model_summary }

/-- Outcome of the health fetch: an HTTP response with its ok flag, or a thrown
network error. -/
inductive FetchOutcome
  | response (ok : Bool)
  | networkError (message : String)
  deriving DecidableEq, Repr

/-- HealthStatus from api.ts lines 30-33. -/
structure HealthStatus where
  status : String
  timestamp : Option String := none
  deriving DecidableEq, Repr

/-- checkHealth from api.ts lines 35-50; now stands for new Date().toISOString().
Every outcome, including a thrown network error, is caught and mapped to a value. -/
def checkHealth (outcome : FetchOutcome) (now : String) : HealthStatus :=
  match outcome with
  | .response ok =>
    if ok then { status := "healthy", timestamp := some now }
    else { status := "unhealthy" }
  | .networkError _ => { status := "unhealthy" }

/- ---------- useWebSocket.ts: sendMessage ---------- -/

/-- The readyState constants of the WebSocket API. -/
inductive ReadyState
  | CONNECTING
  | OPEN
  | CLOSING
  | CLOSED
  deriving DecidableEq, Repr

/-- The part of a WebSocket object that sendMessage reads. -/
structure WSocket where
  readyState : ReadyState
  deriving DecidableEq, Repr

/-- Observable outcome of one sendMessage call: whether a frame was transmitted and
whether an exception escaped to the caller. -/
structure SendResult where
  transmitted : Bool
  raised : Bool
  deriving DecidableEq, Repr

/-- sendMessage from useWebSocket.ts lines 113-124: guarded by the socket object being
present, the connected flag, and readyState being OPEN; the serialize-and-send step
(whose own success or failure is passed in) is wrapped in try/catch, so nothing ever
propagates. -/
def sendMessage (ws : Option WSocket) (isConnected : Bool)
    (sendAttempt : Except String Unit) : SendResult :=
  match ws with
  | some sock =>
    if isConnected && sock.readyState == ReadyState.OPEN then
      match sendAttempt with
      | .ok _ => { transmitted := true, raised := false }
      | .error _ => { transmitted := false, raised := false }
    else { transmitted := false, raised := false }
  | none => { transmitted := false, raised := false }

/- ---------- Index.tsx: updateInfrastructure ---------- -/

/-- The pieces of the page state that updateInfrastructure writes (Index.tsx). -/
structure AppState where
  diagram : String
  terraform : String
  originalTerraform : String
  warnings : List Warning
  corrections : List String
  currentModelId : Option String
  deriving DecidableEq, Repr

/-- updateInfrastructure from Index.tsx lines 316-364: diagram always from the
response; without skipTerraformUpdate both the editor text and the baseline take the
response's code, with it the editor text is kept and only the baseline is rebased to
the current editor text; warnings and corrections from the response; the model id is
adopted only when the response carries a truthy one. -/
def updateInfrastructure (response : InfrastructureResponse)
    (skipTerraformUpdate : Bool) (s : AppState) : AppState :=
  let s1 := { s with diagram := response.diagram }
  let s2 :=
    if !skipTerraformUpdate then
      { s1 with terraform := response.terraform, originalTerraform := response.terraform }
    else
      { s1 with originalTerraform := s.terraform }
  let s3 := { s2 with warnings := response.warnings,
                      corrections := response.corrections.getD [] }
  match response.modelId with
  | some m => if m ≠ "" then { s3 with currentModelId := some m } else s3
  | none => s3

/- ---------- Spec-modelled backend fragment ---------- -/

/-- Result type of the Mutation Engine's move, per the spec's error taxonomy. -/
inductive MoveOutcome
  | ok
  | invalidOperation
  | notFound
  deriving DecidableEq, Repr

/-- Modelled from the spec: the backend Mutation Engine's move operation is not part of
this repository's sources (only its UI caller is).  Spec section 4.5: move is permitted
only for resource types that are containment leaves compatible with subnet placement
(Ec2Instance, RdsDatabase); it fails with InvalidOperation for other types, and fails
with NotFound if the resource or target subnet does not exist.  Resources are given as
(identifier, type) pairs. -/
def moveOutcome (resources : List (String × String)) (subnets : List String)
    (resourceId targetSubnetId : String) : MoveOutcome :=
  match resources.find? (fun p => p.1 == resourceId) with
  | none => .notFound
  | some p =>
    if p.2 ≠ "Ec2Instance" ∧ p.2 ≠ "RdsDatabase" then .invalidOperation
    else if subnets.contains targetSubnetId then .ok
    else .notFound

/- ---------- Helper lemmas ---------- -/

theorem takeWhile_append_cons {p : Char → Bool} {l : List Char} {b : Char} {t : List Char}
    (hl : ∀ c ∈ l, p c = true) (hb : p b = false) :
    (l ++ b :: t).takeWhile p = l := by
  induction l with
  | nil => simp [List.takeWhile_cons, hb]
  | cons a l ih =>
    have ha := hl a (by simp)
    simp only [List.cons_append, List.takeWhile_cons, ha, if_true]
    rw [ih fun c hc => hl c (by simp [hc])]

theorem dropWhile_append_cons {p : Char → Bool} {l : List Char} {b : Char} {t : List Char}
    (hl : ∀ c ∈ l, p c = true) (hb : p b = false) :
    (l ++ b :: t).dropWhile p = b :: t := by
  induction l with
  | nil => simp [List.dropWhile_cons, hb]
  | cons a l ih =>
    have ha := hl a (by simp)
    simp only [List.cons_append, List.dropWhile_cons, ha, if_true]
    exact ih fun c hc => hl c (by simp [hc])

theorem isWordChar_hyphen : isWordChar '-' = false := by decide

theorem isWordOrHyphen_lbracket : isWordOrHyphen '[' = false := by decide

theorem dq_bne_self : (dq != dq) = false := by decide

/-- The node-label regex succeeds at the head of a character list of the generated
shape, capturing exactly the embedded identifier and label. -/
theorem tryMatchAt_shape {w1 w2 lab rest : List Char}
    (hw1 : w1 ≠ []) (hw1c : ∀ c ∈ w1, isWordChar c = true)
    (hw2 : w2 ≠ []) (hw2c : ∀ c ∈ w2, isWordOrHyphen c = true)
    (hlab : lab ≠ []) (hlabc : ∀ c ∈ lab, (c != dq) = true) :
    tryMatchAt (w1 ++ '-' :: (w2 ++ '[' :: dq :: (lab ++ dq :: rest)))
      = some (w1 ++ '-' :: w2, lab) := by
  have h1t : (w1 ++ '-' :: (w2 ++ '[' :: dq :: (lab ++ dq :: rest))).takeWhile isWordChar = w1 :=
    takeWhile_append_cons hw1c isWordChar_hyphen
  have h1d : (w1 ++ '-' :: (w2 ++ '[' :: dq :: (lab ++ dq :: rest))).dropWhile isWordChar
      = '-' :: (w2 ++ '[' :: dq :: (lab ++ dq :: rest)) :=
    dropWhile_append_cons hw1c isWordChar_hyphen
  have h2t : (w2 ++ '[' :: dq :: (lab ++ dq :: rest)).takeWhile isWordOrHyphen = w2 :=
    takeWhile_append_cons hw2c isWordOrHyphen_lbracket
  have h2d : (w2 ++ '[' :: dq :: (lab ++ dq :: rest)).dropWhile isWordOrHyphen
      = '[' :: dq :: (lab ++ dq :: rest) :=
    dropWhile_append_cons hw2c isWordOrHyphen_lbracket
  have h3t : (lab ++ dq :: rest).takeWhile (fun d => d != dq) = lab :=
    takeWhile_append_cons hlabc dq_bne_self
  have h3d : (lab ++ dq :: rest).dropWhile (fun d => d != dq) = dq :: rest :=
    dropWhile_append_cons hlabc dq_bne_self
  unfold tryMatchAt
  rw [h1t, h1d]
  simp only [List.isEmpty_eq_true, hw1, if_false]
  rw [h2t, h2d]
  simp only [List.isEmpty_eq_true, hw2, if_false]
  simp only [beq_self_eq_true, if_true]
  rw [h3t, h3d]
  simp only [List.isEmpty_eq_true, hlab, if_false]
  simp

/-- The regex can never start matching at a non-word character. -/
theorem tryMatchAt_nonword {c : Char} {t : List Char} (hc : isWordChar c = false) :
    tryMatchAt (c :: t) = none := by
  unfold tryMatchAt
  simp [List.takeWhile_cons, hc]

/-- Leading spaces never contain a match start, so the leftmost scan skips them. -/
theorem scanLine_append_spaces {ws t : List Char} (h : ∀ c ∈ ws, c = ' ') :
    scanLine (ws ++ t) = scanLine t := by
  induction ws with
  | nil => rfl
  | cons a ws ih =>
    have ha : a = ' ' := h a (by simp)
    subst ha
    have hnone : tryMatchAt (' ' :: (ws ++ t)) = none := tryMatchAt_nonword (by decide)
    simp only [List.cons_append, scanLine, hnone]
    exact ih fun c hc => h c (by simp [hc])

theorem scanLine_head_match {cs : List Char} {r : List Char × List Char}
    (hne : cs ≠ []) (h : tryMatchAt cs = some r) :
    scanLine cs = some r := by
  cases cs with
  | nil => exact absurd rfl hne
  | cons a t => simp [scanLine, h]

/-- A line whose scan succeeds contributes its entry to extractResourceIds. -/
theorem mem_extractResourceIds_of_scan {diagram : String} {lineChars idChars labChars : List Char}
    (hne : diagram ≠ "")
    (hmem : lineChars ∈ splitOnNewline diagram.toList)
    (hscan : scanLine lineChars = some (idChars, labChars)) :
    { id := String.mk idChars, «type» := typeForId (String.mk idChars),
      label := String.mk (removeIdTag (replaceBr labChars)) } ∈ extractResourceIds diagram := by
  unfold extractResourceIds
  rw [if_neg hne]
  exact List.mem_filterMap.mpr ⟨lineChars, hmem, by rw [hscan]⟩

/- ---------- Claim theorems ---------- -/

/-- C1: for every diagram text containing a node line in the generated label format
(optional leading spaces, then an identifier of the form word-hyphen-suffix, then a
bracketed quoted label), extractResourceIds returns an entry whose id is exactly the
identifier embedded in that node line, so every resource identifier embedded in a
rendered node label is recoverable from the diagram text by the editing UI. -/
theorem c1_extract_recovers_embedded_id
    (diagram : String) (lineChars ws w1 w2 lab rest : List Char)
    (hline : lineChars ∈ splitOnNewline diagram.toList)
    (hshape : lineChars = ws ++ (w1 ++ '-' :: (w2 ++ '[' :: dq :: (lab ++ dq :: rest))))
    (hws : ∀ c ∈ ws, c = ' ')
    (hw1 : w1 ≠ []) (hw1c : ∀ c ∈ w1, isWordChar c = true)
    (hw2 : w2 ≠ []) (hw2c : ∀ c ∈ w2, isWordOrHyphen c = true)
    (hlab : lab ≠ []) (hlabc : ∀ c ∈ lab, (c != dq) = true) :
    ∃ r ∈ extractResourceIds diagram, r.id = String.mk (w1 ++ '-' :: w2) := by
  have hdiag : diagram ≠ "" := by
    intro hd
    subst hd
    have hl : lineChars = [] := by
      have : splitOnNewline ("" : String).toList = [[]] := rfl
      rw [this] at hline
      simpa using hline
    rw [hl] at hshape
    rcases List.append_eq_nil.mp hshape.symm with ⟨-, h2⟩
    rcases List.append_eq_nil.mp h2 with ⟨hw1nil, -⟩
    exact hw1 hw1nil
  have hmatch := @tryMatchAt_shape w1 w2 lab rest hw1 hw1c hw2 hw2c hlab hlabc
  have hscan : scanLine lineChars = some (w1 ++ '-' :: w2, lab) := by
    rw [hshape, scanLine_append_spaces hws]
    refine scanLine_head_match ?_ hmatch
    intro habs
    rcases List.append_eq_nil.mp habs with ⟨hw1nil, -⟩
    exact hw1 hw1nil
  exact ⟨_, mem_extractResourceIds_of_scan hdiag hline hscan, rfl⟩

/-- A concrete two-line diagram whose second line is a generated node label. -/
def c1Diagram : String :=
  String.mk ("graph TB\n  ec2-web-1[".toList ++ [dq] ++ "web ID: ec2-web-1".toList
    ++ [dq] ++ "]".toList)

/-- C1 witness: on a concrete rendered diagram the embedded identifier ec2-web-1 is
recovered by extractResourceIds. -/
theorem c1_witness : ∃ r ∈ extractResourceIds c1Diagram, r.id = "ec2-web-1" := by
  have h := c1_extract_recovers_embedded_id c1Diagram
    ("  ec2-web-1[".toList ++ [dq] ++ "web ID: ec2-web-1".toList ++ [dq] ++ "]".toList)
    [' ', ' '] "ec2".toList "web-1".toList "web ID: ec2-web-1".toList "]".toList
    (by decide) (by decide) (by decide) (by decide) (by decide) (by decide) (by decide)
    (by decide) (by decide)
  obtain ⟨r, hr, hid⟩ := h
  exact ⟨r, hr, by rw [hid]; decide⟩

/-- C2: when the user applies Terraform changes, updateInfrastructure called with
skipTerraformUpdate (the reconcile path of handleApplyTerraform) leaves the terraform
editor state exactly as the user's modified text and only rebases the stored
original-code baseline to that text, while the diagram and warnings are replaced from
the response; in the non-skip path both terraform and the baseline are set to the
response's code. -/
theorem c2_apply_preserves_user_code (response : InfrastructureResponse) (s : AppState) :
    ((updateInfrastructure response true s).terraform = s.terraform
      ∧ (updateInfrastructure response true s).originalTerraform = s.terraform
      ∧ (updateInfrastructure response true s).diagram = response.diagram
      ∧ (updateInfrastructure response true s).warnings = response.warnings)
    ∧ ((updateInfrastructure response false s).terraform = response.terraform
      ∧ (updateInfrastructure response false s).originalTerraform = response.terraform
      ∧ (updateInfrastructure response false s).diagram = response.diagram
      ∧ (updateInfrastructure response false s).warnings = response.warnings) := by
  unfold updateInfrastructure
  cases h : response.modelId with
  | none => simp
  | some m =>
    by_cases hm : m = "" <;> simp [hm]

/-- C2 witness: the theorem instantiated at a concrete response and state. -/
theorem c2_witness :
    ((updateInfrastructure { diagram := "D2", terraform := "T2", warnings := [] } true
        { diagram := "D1", terraform := "USER", originalTerraform := "T1",
          warnings := [], corrections := [], currentModelId := some "m1" }).terraform
      = "USER")
    ∧ ((updateInfrastructure { diagram := "D2", terraform := "T2", warnings := [] } true
        { diagram := "D1", terraform := "USER", originalTerraform := "T1",
          warnings := [], corrections := [], currentModelId := some "m1" }).originalTerraform
      = "USER") :=
  ⟨(c2_apply_preserves_user_code { diagram := "D2", terraform := "T2", warnings := [] }
      { diagram := "D1", terraform := "USER", originalTerraform := "T1",
        warnings := [], corrections := [], currentModelId := some "m1" }).1.1,
   (c2_apply_preserves_user_code { diagram := "D2", terraform := "T2", warnings := [] }
      { diagram := "D1", terraform := "USER", originalTerraform := "T1",
        warnings := [], corrections := [], currentModelId := some "m1" }).1.2.1⟩

/-- C9: checkHealth is total and never raises; it returns status healthy, with a
timestamp, exactly when the HTTP response is ok, and status unhealthy both for a
non-ok response and for a thrown network error. -/
theorem c9_checkHealth_total (outcome : FetchOutcome) (now : String) :
    ((checkHealth outcome now).status = "healthy"
      ∨ (checkHealth outcome now).status = "unhealthy")
    ∧ ((checkHealth outcome now).status = "healthy" ↔ outcome = FetchOutcome.response true)
    ∧ ((checkHealth outcome now).timestamp
       = if outcome = FetchOutcome.response true then some now else none) := by
  cases outcome with
  | response ok => cases ok <;> simp [checkHealth]
  | networkError m => simp [checkHealth]

/-- C9 witness: the theorem instantiated at a thrown network error. -/
theorem c9_witness :
    ((checkHealth (FetchOutcome.networkError "ECONNREFUSED") "ts").status = "healthy"
      ↔ FetchOutcome.networkError "ECONNREFUSED" = FetchOutcome.response true)
    ∧ ((checkHealth (FetchOutcome.networkError "ECONNREFUSED") "ts").status = "healthy"
      ∨ (checkHealth (FetchOutcome.networkError "ECONNREFUSED") "ts").status = "unhealthy") :=
  ⟨(c9_checkHealth_total (FetchOutcome.networkError "ECONNREFUSED") "ts").2.1,
   (c9_checkHealth_total (FetchOutcome.networkError "ECONNREFUSED") "ts").1⟩

/-- C10: sendMessage transmits only when the socket object exists, the connected flag
is set and the socket's readyState is OPEN with the serialize-and-send step
succeeding; in every other state the call is a no-op, and a serialization or send
failure is caught, so sendMessage never raises to the caller. -/
theorem c10_sendMessage_guarded (ws : Option WSocket) (isConnected : Bool)
    (sendAttempt : Except String Unit) :
    ((sendMessage ws isConnected sendAttempt).raised = false)
    ∧ ((sendMessage ws isConnected sendAttempt).transmitted = true →
        ∃ sock, ws = some sock ∧ isConnected = true
          ∧ sock.readyState = ReadyState.OPEN ∧ sendAttempt = Except.ok ()) := by
  cases ws with
  | none => simp [sendMessage]
  | some sock =>
    cases isConnected with
    | false => simp [sendMessage]
    | true =>
      by_cases hrs : sock.readyState = ReadyState.OPEN
      · cases sendAttempt with
        | ok u => cases u; simp [sendMessage, hrs]
        | error e => simp [sendMessage, hrs]
      · have : (sock.readyState == ReadyState.OPEN) = false := by
          simpa using hrs
        simp [sendMessage, this]

/-- C10 witness: the theorem instantiated at an open, connected socket with a
successful send; the transmission implies all three guards held. -/
theorem c10_witness :
    ∃ sock, (some { readyState := ReadyState.OPEN } : Option WSocket) = some sock
      ∧ true = true ∧ sock.readyState = ReadyState.OPEN
      ∧ (Except.ok () : Except String Unit) = Except.ok () :=
  (c10_sendMessage_guarded (some { readyState := ReadyState.OPEN }) true
    (Except.ok ())).2 (by decide)

theorem mem_mapSecurityWarnings {ws : Option (List BackendWarning)} {w : Warning}
    (h : w ∈ mapSecurityWarnings ws) :
    ∃ bw, w = mapWarning bw ∧ w.severity = mapSeverity bw.severity := by
  unfold mapSecurityWarnings at h
  rcases List.mem_map.mp h with ⟨bw, -, hbw⟩
  exact ⟨bw, hbw.symm, by rw [← hbw]; rfl⟩

theorem editDiagram_ok_warnings {modelId : String} {event : DiagramEditEvent}
    {respond : BackendRequest → FetchResult EditData} {resp : InfrastructureResponse}
    (h : editDiagram modelId event respond = Except.ok resp) :
    ∃ data, resp.warnings = mapSecurityWarnings (EditData.security_warnings data) := by
  unfold editDiagram at h
  cases hb : buildBackendRequest modelId event with
  | error e => rw [hb] at h; exact absurd h (by simp)
  | ok req =>
    rw [hb] at h
    dsimp only at h
    cases hr : respond req with
    | httpError st et => rw [hr] at h; exact absurd h (by simp)
    | ok data =>
      rw [hr] at h
      dsimp only at h
      by_cases hs : data.success = false
      · rw [if_pos hs] at h; exact absurd h (by simp)
      · rw [if_neg hs] at h
        exact ⟨data, by rw [← Except.ok.inj h]; rfl⟩

/-- C3: every Warning delivered by the API client (from generateFromText, editDiagram
and editTerraform) comes from a backend warning through the severity mapping, whose
range is the set of error, warning and info: a backend severity of HIGH maps to error,
MEDIUM maps to warning, and every other backend severity value maps to info. -/
theorem c3_severity_mapping :
    (∀ s, mapSeverity s = "error" ∨ mapSeverity s = "warning" ∨ mapSeverity s = "info")
    ∧ (mapSeverity "HIGH" = "error")
    ∧ (mapSeverity "MEDIUM" = "warning")
    ∧ (∀ s, s ≠ "HIGH" → s ≠ "MEDIUM" → mapSeverity s = "info")
    ∧ (∀ respond resp w, generateFromText respond = Except.ok resp → w ∈ resp.warnings →
        (∃ bw, w = mapWarning bw ∧ w.severity = mapSeverity bw.severity)
        ∧ (w.severity = "error" ∨ w.severity = "warning" ∨ w.severity = "info"))
    ∧ (∀ modelId event respond resp w, editDiagram modelId event respond = Except.ok resp →
        w ∈ resp.warnings →
        (∃ bw, w = mapWarning bw ∧ w.severity = mapSeverity bw.severity)
        ∧ (w.severity = "error" ∨ w.severity = "warning" ∨ w.severity = "info"))
    ∧ (∀ m oc mc respond resp w, editTerraform m oc mc respond = Except.ok resp →
        w ∈ resp.warnings →
        (∃ bw, w = mapWarning bw ∧ w.severity = mapSeverity bw.severity)
        ∧ (w.severity = "error" ∨ w.severity = "warning" ∨ w.severity = "info")) := by
  have hrange : ∀ s, mapSeverity s = "error" ∨ mapSeverity s = "warning" ∨ mapSeverity s = "info" := by
    intro s
    unfold mapSeverity
    by_cases h1 : s = "HIGH" <;> by_cases h2 : s = "MEDIUM" <;> simp [h1, h2]
  refine ⟨hrange, rfl, rfl, ?_, ?_, ?_, ?_⟩
  · intro s h1 h2
    unfold mapSeverity
    simp [h1, h2]
  · intro respond resp w hok hw
    cases respond with
    | httpError st et => exact absurd hok (by simp [generateFromText])
    | ok data =>
      have hresp : resp.warnings = mapSecurityWarnings data.security_warnings := by
        unfold generateFromText at hok
        rw [← Except.ok.inj hok]
      rw [hresp] at hw
      obtain ⟨bw, hbw, hsev⟩ := mem_mapSecurityWarnings hw
      exact ⟨⟨bw, hbw, hsev⟩, hsev ▸ hrange bw.severity⟩
  · intro modelId event respond resp w hok hw
    obtain ⟨data, hresp⟩ := editDiagram_ok_warnings hok
    rw [hresp] at hw
    obtain ⟨bw, hbw, hsev⟩ := mem_mapSecurityWarnings hw
    exact ⟨⟨bw, hbw, hsev⟩, hsev ▸ hrange bw.severity⟩
  · intro m oc mc respond resp w hok hw
    cases hr : respond { current_model_id := m, original_terraform := oc,
                         modified_terraform := mc } with
    | httpError st et =>
      rw [editTerraform, hr] at hok
      exact absurd hok (by simp)
    | ok data =>
      have hresp : resp.warnings = mapSecurityWarnings data.security_warnings := by
        rw [editTerraform, hr] at hok
        rw [← Except.ok.inj hok]
      rw [hresp] at hw
      obtain ⟨bw, hbw, hsev⟩ := mem_mapSecurityWarnings hw
      exact ⟨⟨bw, hbw, hsev⟩, hsev ▸ hrange bw.severity⟩

/-- A concrete backend payload with one HIGH-severity warning. -/
def c3Data : GenerateData where
  mermaid_diagram := "d"
  terraform_code := "t"
  security_warnings := some [{ severity := "HIGH", message := "open port" }]

/-- The response generateFromText delivers for c3Data. -/
def c3Resp : InfrastructureResponse where
  diagram := "d"
  terraform := "t"
  warnings := [{ severity := "error", message := "open port" }]
  corrections := some []

/-- C3 witness: a concrete generateFromText call whose backend warning has severity
HIGH delivers a warning whose severity is in the allowed set. -/
theorem c3_witness :
    (∃ bw, ({ severity := "error", message := "open port" } : Warning) = mapWarning bw
      ∧ ("error" : String) = mapSeverity bw.severity)
    ∧ (("error" : String) = "error" ∨ ("error" : String) = "warning"
      ∨ ("error" : String) = "info") := by
  have h := c3_severity_mapping.2.2.2.2.1 (FetchResult.ok c3Data) c3Resp
    { severity := "error", message := "open port" } (by decide) (by decide)
  exact h

/-- C6: editDiagram reports failures as errors and never commits a partial result.
For a remove or move event lacking a resource id (undefined or empty, both falsy) and
for a move event lacking a target subnet, the same error is produced for every
possible backend behaviour, i.e. before any backend request is sent; and for every
backend response with success = false, it raises the backend's reported error message
(or the fallback) and returns no infrastructure response. -/
theorem c6_editDiagram_all_or_nothing :
    (∀ modelId event respond,
       (event.action = EditAction.remove ∨ event.action = EditAction.move) →
       event.resourceId.getD "" = "" →
       editDiagram modelId event respond
         = Except.error "Resource ID is required for remove/move operations")
    ∧ (∀ modelId event respond,
       event.action = EditAction.move →
       event.resourceId.getD "" ≠ "" →
       event.targetSubnet.getD "" = "" →
       editDiagram modelId event respond
         = Except.error "Target subnet is required for move operation")
    ∧ (∀ modelId event req respond data,
       buildBackendRequest modelId event = Except.ok req →
       respond req = FetchResult.ok data →
       data.success = false →
       editDiagram modelId event respond
         = Except.error (strOr data.error "Operation failed")) := by
  refine ⟨?_, ?_, ?_⟩
  · intro modelId event respond hrm hid
    rcases hrm with h | h <;>
      simp [editDiagram, buildBackendRequest, h, hid]
  · intro modelId event respond hmv hid hts
    simp [editDiagram, buildBackendRequest, hmv, hid, hts]
  · intro modelId event req respond data hb hr hs
    unfold editDiagram
    rw [hb]
    dsimp only
    rw [hr]
    dsimp only
    rw [if_pos hs]

/-- The remove event the witness uses, with no resource id. -/
def c6RemoveEvent : DiagramEditEvent where
  action := EditAction.remove
  resourceType := "ec2"

/-- The add event the witness uses. -/
def c6AddEvent : DiagramEditEvent where
  action := EditAction.add
  resourceType := "ec2"

/-- A failing backend response carrying an error message. -/
def c6FailData : EditData where
  success := false
  error := some "Resource not found in model"

/-- C6 witness: a concrete remove without a resource id errors without consulting the
backend, and a concrete backend failure response surfaces the backend's message. -/
theorem c6_witness :
    (editDiagram "m1" c6RemoveEvent (fun _ => FetchResult.ok { success := true })
      = Except.error "Resource ID is required for remove/move operations")
    ∧ (editDiagram "m1" c6AddEvent (fun _ => FetchResult.ok c6FailData)
      = Except.error (strOr c6FailData.error "Operation failed")) := by
  constructor
  · exact c6_editDiagram_all_or_nothing.1 "m1" c6RemoveEvent
      (fun _ => FetchResult.ok { success := true }) (Or.inl (by decide)) (by decide)
  · exact c6_editDiagram_all_or_nothing.2.2 "m1" c6AddEvent
      { current_model_id := "m1", operation := "add_resource", resource_type := "ec2",
        properties := some addDefaultProperties }
      (fun _ => FetchResult.ok c6FailData) c6FailData (by decide) (by decide) (by decide)

/-- C7: confirming a remove or move with a non-empty resource identifier that does not
occur among the identifiers extracted from the current diagram emits no edit event:
the operation is aborted and the stale identifier and active action are cleared. -/
theorem c7_stale_identifier_aborts
    (currentDiagram : Option String) (s : ControlsState) (action : EditAction)
    (hact : s.activeAction = some action)
    (hrm : action = EditAction.remove ∨ action = EditAction.move)
    (hid : s.resourceId ≠ "")
    (hmiss : ∀ r ∈ availableResources currentDiagram, r.id ≠ s.resourceId) :
    handleAction action currentDiagram s
      = ({ s with resourceId := "", activeAction := none }, none) := by
  have hfind : (availableResources currentDiagram).find? (fun r => r.id == s.resourceId)
      = none :=
    List.find?_eq_none.mpr fun r hr => by simpa using hmiss r hr
  unfold handleAction
  rw [if_pos hact, if_pos ⟨hrm, hid, hfind⟩]

/-- The controls state the C7 witness starts from. -/
def c7State : ControlsState where
  selectedResource := "ec2"
  resourceId := "ec2-gone-1"
  targetSubnet := "subnet-public-1"
  activeAction := some EditAction.remove

/-- C7 witness: confirming a remove of ec2-gone-1 against a diagram with no node
labels emits nothing and clears the stale identifier and the active action. -/
theorem c7_witness :
    handleAction EditAction.remove (some "graph TB") c7State
      = ({ c7State with resourceId := "", activeAction := none }, none) :=
  c7_stale_identifier_aborts (some "graph TB") c7State EditAction.remove
    (by decide) (Or.inl (by decide)) (by decide) (by decide)

/-- C8: every mutation request editDiagram actually sends has operation equal to the
action name suffixed with _resource, always carries the resource type, and includes
resource_id exactly when the action is remove or move, target_subnet_id exactly when
the action is move, and properties exactly when the action is add. -/
theorem c8_request_shape (modelId : String) (event : DiagramEditEvent)
    (req : BackendRequest)
    (h : buildBackendRequest modelId event = Except.ok req) :
    req.operation = actionName event.action ++ "_resource"
    ∧ req.resource_type = event.resourceType
    ∧ (req.resource_id.isSome
        ↔ (event.action = EditAction.remove ∨ event.action = EditAction.move))
    ∧ (req.target_subnet_id.isSome ↔ event.action = EditAction.move)
    ∧ (req.properties.isSome ↔ event.action = EditAction.add) := by
  cases ha : event.action with
  | add =>
    simp only [buildBackendRequest, ha] at h
    simp at h
    rw [← h]
    simp [ha]
  | remove =>
    simp only [buildBackendRequest, ha] at h
    by_cases hid : event.resourceId.getD "" = ""
    · simp [hid] at h
    · have hsome : event.resourceId.isSome = true := by
        cases o : event.resourceId with
        | none => rw [o] at hid; exact absurd rfl hid
        | some v => rfl
      simp [hid] at h
      rw [← h]
      simp [ha, hsome]
  | move =>
    simp only [buildBackendRequest, ha] at h
    by_cases hid : event.resourceId.getD "" = ""
    · simp [hid] at h
    · by_cases hts : event.targetSubnet.getD "" = ""
      · simp [hid, hts] at h
      · have hsome : event.resourceId.isSome = true := by
          cases o : event.resourceId with
          | none => rw [o] at hid; exact absurd rfl hid
          | some v => rfl
        have htsome : event.targetSubnet.isSome = true := by
          cases o : event.targetSubnet with
          | none => rw [o] at hts; exact absurd rfl hts
          | some v => rfl
        simp [hid, hts] at h
        rw [← h]
        simp [ha, hsome, htsome]

/-- The move event the C8 witness uses. -/
def c8MoveEvent : DiagramEditEvent where
  action := EditAction.move
  resourceType := "ec2"
  resourceId := some "ec2-web-1"
  targetSubnet := some "subnet-private-1"

/-- The request built for c8MoveEvent. -/
def c8MoveReq : BackendRequest where
  current_model_id := "m1"
  operation := "move_resource"
  resource_type := "ec2"
  resource_id := some "ec2-web-1"
  target_subnet_id := some "subnet-private-1"

/-- C8 witness: the concrete move request has the move_resource operation, carries the
resource type, the resource id and the target subnet, and no properties. -/
theorem c8_witness :
    c8MoveReq.operation = actionName c8MoveEvent.action ++ "_resource"
    ∧ c8MoveReq.resource_type = c8MoveEvent.resourceType
    ∧ (c8MoveReq.resource_id.isSome
        ↔ (c8MoveEvent.action = EditAction.remove ∨ c8MoveEvent.action = EditAction.move))
    ∧ (c8MoveReq.target_subnet_id.isSome ↔ c8MoveEvent.action = EditAction.move)
    ∧ (c8MoveReq.properties.isSome ↔ c8MoveEvent.action = EditAction.add) :=
  c8_request_shape "m1" c8MoveEvent c8MoveReq (by decide)

/-- C5: a move, as specified for the backend Mutation Engine (modelled from the spec
because the engine is not among this repository's sources), is permitted only for
resources of type Ec2Instance or RdsDatabase and yields InvalidOperation for an
existing resource of any other type; in the UI this manifests as movableResources
containing exactly the extracted resources whose type is EC2 or RDS. -/
theorem c5_move_restricted_to_ec2_rds :
    (∀ (resources : List (String × String)) (subnets : List String)
       (resourceId targetSubnetId : String) (p : String × String),
       resources.find? (fun q => q.1 == resourceId) = some p →
       p.2 ≠ "Ec2Instance" → p.2 ≠ "RdsDatabase" →
       moveOutcome resources subnets resourceId targetSubnetId
         = MoveOutcome.invalidOperation)
    ∧ (∀ (d : Option String) (r : ExtractedResource),
       r ∈ movableResources d
         ↔ (r ∈ extractResourceIds (d.getD "")
            ∧ (r.«type» = "EC2" ∨ r.«type» = "RDS"))) := by
  constructor
  · intro resources subnets resourceId targetSubnetId p hfind h1 h2
    unfold moveOutcome
    rw [hfind]
    dsimp only
    rw [if_pos ⟨h1, h2⟩]
  · intro d r
    simp [movableResources, availableResources, List.mem_filter]

/-- C5 witness: moving an existing S3 bucket is InvalidOperation, and the extracted
EC2 node of a concrete diagram is offered among the movable resources. -/
theorem c5_witness :
    (moveOutcome [("s3-data", "S3Bucket")] ["subnet-private-1"] "s3-data" "subnet-private-1"
      = MoveOutcome.invalidOperation)
    ∧ (({ id := "ec2-web-1", «type» := "EC2", label := "web ec2-web-1" } : ExtractedResource)
        ∈ movableResources (some c1Diagram)
      ↔ (({ id := "ec2-web-1", «type» := "EC2", label := "web ec2-web-1" } : ExtractedResource)
          ∈ extractResourceIds ((some c1Diagram).getD "")
        ∧ (("EC2" : String) = "EC2" ∨ ("EC2" : String) = "RDS"))) :=
  ⟨c5_move_restricted_to_ec2_rds.1 [("s3-data", "S3Bucket")] ["subnet-private-1"]
      "s3-data" "subnet-private-1" ("s3-data", "S3Bucket") (by decide) (by decide) (by decide),
   c5_move_restricted_to_ec2_rds.2 (some c1Diagram)
      { id := "ec2-web-1", «type» := "EC2", label := "web ec2-web-1" }⟩

/-- A concrete diagram whose only subnet node is subnet-private-9; the identifier
subnet-public-1 occurs nowhere in it. -/
def c4Diagram : String :=
  String.mk ("graph TB\n  subnet-private-9[".toList ++ [dq]
    ++ "Private Subnet 9".toList ++ [dq] ++ "]".toList)

/-- The controls state of a confirmed add on that diagram. -/
def c4State : ControlsState where
  selectedResource := "ec2"
  resourceId := ""
  targetSubnet := "subnet-public-1"
  activeAction := some EditAction.add

/-- C4 counterexample: confirming an add of an EC2 instance against a concrete graph
whose only subnet is subnet-private-9 still defaults the containment to the fixed
identifier subnet-public-1, which is not an identifier of that graph at all; and an
add event reaching editDiagram without properties is defaulted to the fixed
identifiers subnet-public-1 and subnet-private-1.  The defaults are therefore
independent of the graph's contents, refuting the claimed default to the graph's
first subnet of the appropriate visibility. -/
theorem c4_counterexample :
    ((handleAction EditAction.add (some c4Diagram) c4State).2
      = some { action := EditAction.add, resourceType := "ec2", resourceId := none,
               targetSubnet := none,
               properties := some [("subnet_id", PropValue.str "subnet-public-1"),
                                   ("instance_type", PropValue.str "t2.micro")] })
    ∧ (((extractResourceIds c4Diagram).map fun r => r.id) = ["subnet-private-9"])
    ∧ (((extractResourceIds c4Diagram).all fun r => r.id != "subnet-public-1") = true)
    ∧ (((buildBackendRequest "model-1"
          { action := EditAction.add, resourceType := "ec2" }).map fun r => r.properties)
      = Except.ok (some [("subnet_id", PropValue.str "subnet-public-1"),
                         ("subnet_ids", PropValue.strList ["subnet-private-1"])])) := by
  refine ⟨?_, ?_, ?_, ?_⟩ <;> decide

/-- C4 as amended: when the caller does not specify properties for an add, editDiagram
defaults them to the fixed identifiers subnet-public-1 (subnet_id) and subnet-private-1
(subnet_ids) hardcoded in the client, independent of the graph's contents; and the UI's
confirmed add always emits exactly getDefaultProperties of the selected type, likewise
independent of the current diagram. -/
theorem c4_add_defaults_fixed :
    (∀ modelId event, event.action = EditAction.add →
       ∃ req, buildBackendRequest modelId event = Except.ok req
         ∧ req.properties = some (event.properties.getD addDefaultProperties)
         ∧ req.resource_id = none ∧ req.target_subnet_id = none)
    ∧ (∀ d d' s, s.activeAction = some EditAction.add →
       (handleAction EditAction.add d s).2 = (handleAction EditAction.add d' s).2
       ∧ (handleAction EditAction.add d s).2
          = some { action := EditAction.add, resourceType := s.selectedResource,
                   resourceId := if s.resourceId = "" then none else some s.resourceId,
                   targetSubnet := none,
                   properties := some (getDefaultProperties s.selectedResource) }) := by
  constructor
  · intro modelId event hadd
    simp only [buildBackendRequest, hadd]
    simp
  · intro d d' s hact
    have hguard : ¬((EditAction.add = EditAction.remove ∨ EditAction.add = EditAction.move)
        ∧ s.resourceId ≠ ""
        ∧ ((availableResources d).find? (fun r => r.id == s.resourceId)) = none) := by
      rintro ⟨h, -, -⟩
      rcases h with h | h <;> exact EditAction.noConfusion h
    have hguard' : ¬((EditAction.add = EditAction.remove ∨ EditAction.add = EditAction.move)
        ∧ s.resourceId ≠ ""
        ∧ ((availableResources d').find? (fun r => r.id == s.resourceId)) = none) := by
      rintro ⟨h, -, -⟩
      rcases h with h | h <;> exact EditAction.noConfusion h
    unfold handleAction
    rw [if_pos hact, if_pos hact, if_neg hguard, if_neg hguard']
    exact ⟨rfl, rfl⟩

/-- C4 witness: the amended claim instantiated at a concrete add for an RDS database
without caller-supplied properties, and at two different concrete diagrams. -/
theorem c4_witness :
    (∃ req, buildBackendRequest "m1" { action := EditAction.add, resourceType := "rds" }
        = Except.ok req
      ∧ req.properties = some ((none : Option (List (String × PropValue))).getD
          addDefaultProperties)
      ∧ req.resource_id = none ∧ req.target_subnet_id = none)
    ∧ ((handleAction EditAction.add (some c4Diagram) c4State).2
        = (handleAction EditAction.add (some c1Diagram) c4State).2) :=
  ⟨c4_add_defaults_fixed.1 "m1" { action := EditAction.add, resourceType := "rds" } rfl,
   (c4_add_defaults_fixed.2 (some c4Diagram) (some c1Diagram) c4State rfl).1⟩
